import Mathlib

/-!
Shallow embedding of the netstack TCP handshake / protocol driver core
(`tcpip/transport/tcp/connect.go`) and of the sleep.Waker primitive
(`sleep/sleep_unsafe.go`), together with theorems checking the
natural-language specification against it.

Machine integers are embedded as `Nat` with explicit reduction modulo
`2 ^ 32` where 32-bit overflow matters (sequence-number arithmetic).
Fallible or possibly non-terminating code is fueled and returns `Option`.
Segment emission (`sendRaw` / `sendSynTCP`) is recorded as a list of
`Emit` values holding the arguments the code passes at those call sites.
-/

namespace Netstack

/-- The modulus 2^32 of sequence-number (`seqnum.Value`) arithmetic. -/
def W : Nat := 4294967296

/-- uint32 subtraction `a - b` on values below `W`. -/
def sub32 (a b : Nat) : Nat := (a + W - b % W) % W

/-- Modelled from the spec: the `seqnum` package is not under `src/`.
`v.InWindow(first, sz)` is the modular window test
`v ∈ [first, first + sz)`, i.e. `(v - first) mod 2^32 < sz`. -/
def inWindow (v first sz : Nat) : Bool := sub32 v first < sz

/-- Modelled from the spec: the TCP flag bits live in the missing
`segment.go`; a segment's flag byte is embedded as four booleans. -/
structure TcpFlags where
  fin : Bool
  syn : Bool
  rst : Bool
  ack : Bool
  deriving DecidableEq, Repr

/-- The outgoing flags right after `resetState` (`flagSyn`). -/
def synFlags : TcpFlags := ⟨false, true, false, false⟩

/-- The combination `flagSyn | flagAck`. -/
def synAckFlags : TcpFlags := ⟨false, true, false, true⟩

/-- The combination `flagRst | flagAck`. -/
def rstAckFlags : TcpFlags := ⟨false, false, true, true⟩

/-- The flag `flagAck` alone. -/
def ackFlags : TcpFlags := ⟨false, false, false, true⟩

/-- Modelled from the spec: the `segment` type is in the missing
`segment.go`. Only the fields `connect.go` reads are embedded; the
payload is represented by its length. -/
structure Segment where
  sequenceNumber : Nat
  ackNumber : Nat
  window : Nat
  flags : TcpFlags
  payloadLen : Nat
  options : List Nat
  deriving DecidableEq, Repr

/-- Modelled from the spec: `logicalLen` (missing `segment.go`) is the
payload length plus one for each of SYN and FIN. -/
def logicalLen (s : Segment) : Nat :=
  s.payloadLen + (if s.flags.syn then 1 else 0) + (if s.flags.fin then 1 else 0)

/-- Errors of the `tcpip` package surfaced by the embedded code. -/
inductive TcpError where
  | connectionRefused
  | connectionReset
  | invalidEndpointState
  | timeout
  | aborted
  | connectionAborted
  deriving DecidableEq, Repr

/-- A recorded segment emission: `raw` holds the arguments of an
`endpoint.sendRaw(nil, flags, seq, ack, rcvWnd)` call, `synTCP` those of
a `sendSynTCP(route, id, flags, seq, ack, rcvWnd, rcvWndScale)` call. -/
inductive Emit where
  | raw (flags : TcpFlags) (seq ack wnd : Nat)
  | synTCP (flags : TcpFlags) (seq ack rcvWnd : Nat) (rcvWndScale : Nat)
  deriving DecidableEq, Repr

/-- The constant `maxWndScale` of `connect.go`. -/
def maxWndScale : Nat := 14

/-- The loop of `findWndScale`: `for wnd > max && s < maxWndScale { s++;
max <<= 1 }`, embedded structurally with `fuel` (callers pass
`fuel = maxWndScale - s`, which the `s < maxWndScale` guard keeps in
sync, so the fuel never runs out before the guard fails). -/
def findWndScaleLoop (wnd : Nat) : Nat → Nat → Nat → Nat
  | _, s, 0 => s
  | max, s, fuel + 1 =>
    if wnd > max ∧ s < maxWndScale then findWndScaleLoop wnd (max * 2) (s + 1) fuel
    else s

/-- The function `findWndScale` of `connect.go`. -/
def findWndScale (wnd : Nat) : Nat :=
  if wnd < 0x10000 then 0
  else findWndScaleLoop wnd 0xffff 0 maxWndScale

/-- The option kinds of `header` (not under `src/`; values from the
spec: MSS kind 2, WS kind 3, plus the standard EOL 0 / NOP 1). -/
def TCPOptionEOL : Nat := 0
def TCPOptionNOP : Nat := 1
def TCPOptionMSS : Nat := 2
def TCPOptionWS : Nat := 3

/-- The loop of `parseSynOptions`, fueled because its default branch can
fail to advance `i`; `none` means the fuel ran out, i.e. the Go loop
has not exited after that many iterations.
State: index `i`, current `mss`, current `ws`. -/
def parseSynOptionsLoop (opts : List Nat) (limit : Nat) :
    Nat → Nat → Nat → Int → Option (Nat × Int × Bool)
  | 0, _, _, _ => none
  | fuel + 1, i, mss, ws =>
    if i < limit then
      let kind := opts.getD i 0
      if kind = TCPOptionEOL then
        parseSynOptionsLoop opts limit fuel limit mss ws
      else if kind = TCPOptionNOP then
        parseSynOptionsLoop opts limit fuel (i + 1) mss ws
      else if kind = TCPOptionMSS then
        if i + 4 > limit ∨ opts.getD (i + 1) 0 ≠ 4 then some (0, -1, false)
        else
          let m := (opts.getD (i + 2) 0) * 256 + opts.getD (i + 3) 0
          if m = 0 then some (0, -1, false)
          else parseSynOptionsLoop opts limit fuel (i + 4) m ws
      else if kind = TCPOptionWS then
        if i + 3 > limit ∨ opts.getD (i + 1) 0 ≠ 3 then some (0, -1, false)
        else
          let w := opts.getD (i + 2) 0
          let w' : Int := if w > maxWndScale then (maxWndScale : Int) else (w : Int)
          parseSynOptionsLoop opts limit fuel (i + 3) mss w'
      else
        if i + 2 > limit then some (0, -1, false)
        else
          let l := opts.getD (i + 1) 0
          if i < 2 ∨ i + l > limit then some (0, -1, false)
          else parseSynOptionsLoop opts limit fuel (i + l) mss ws
    else some (mss, ws, true)

/-- The function `parseSynOptions` of `connect.go`, on the segment's option bytes.
`mss` starts at 536 and `ws` at `-1`. -/
def parseSynOptions (fuel : Nat) (opts : List Nat) : Option (Nat × Int × Bool) :=
  parseSynOptionsLoop opts opts.length fuel 0 536 (-1)

/-- The `handshakeState` enum of `connect.go`. -/
inductive HandshakeState where
  | synSent
  | synRcvd
  | completed
  deriving DecidableEq, Repr

/-- The `handshake` struct of `connect.go` (the `ep` back pointer is
dropped: the endpoint's only role in the embedded paths is `sendRaw`,
recorded as `Emit.raw`). -/
structure Handshake where
  state : HandshakeState
  active : Bool
  flags : TcpFlags
  ackNum : Nat
  iss : Nat
  rcvWnd : Nat
  sndWnd : Nat
  mss : Nat
  sndWndScale : Int
  rcvWndScale : Nat
  deriving DecidableEq, Repr

/-- The method `handshake.resetState` of `connect.go`. The four random bytes are
not modelled; the fresh initial sequence number is an oracle argument,
truncated to uint32 like the Go assembly of the four bytes. -/
def resetState (h : Handshake) (freshIss : Nat) : Handshake :=
  { h with
    state := .synSent
    flags := synFlags
    ackNum := 0
    mss := 0
    iss := freshIss % W }

/-- The method `handshake.effectiveRcvWndScale` of `connect.go`. -/
def effectiveRcvWndScale (h : Handshake) : Nat :=
  if h.sndWndScale < 0 then 0 else h.rcvWndScale

/-- The method `handshake.checkAck` of `connect.go`: returns whether the segment's
ACK number (if any) is acceptable, together with the RST|ACK segment
emitted when it is not. -/
def checkAck (h : Handshake) (s : Segment) : Bool × List Emit :=
  if s.flags.ack ∧ s.ackNumber ≠ (h.iss + 1) % W then
    (false, [.raw rstAckFlags s.ackNumber ((s.sequenceNumber + logicalLen s) % W) 0])
  else (true, [])

/-- The method `handshake.synSentState` of `connect.go`. `fuel` feeds
`parseSynOptions`; a `none` result means that call did not terminate
within the fuel. Returns the updated handshake, the emitted segments in
order, and the error returned (if non-nil). -/
def synSentState (fuel : Nat) (h : Handshake) (s : Segment) :
    Option (Handshake × List Emit × Option TcpError) :=
  if s.flags.rst then
    if s.flags.ack ∧ s.ackNumber = (h.iss + 1) % W then
      some (h, [], some .connectionRefused)
    else some (h, [], none)
  else
    match checkAck h s with
    | (false, es) => some (h, es, none)
    | (true, _) =>
      if ¬ s.flags.syn then some (h, [], none)
      else
        match parseSynOptions fuel s.options with
        | none => none
        | some (mss, sws, ok) =>
          if ¬ ok then some (h, [], none)
          else
            let h1 := { h with
              ackNum := (s.sequenceNumber + 1) % W
              flags := { h.flags with ack := true }
              mss := mss
              sndWndScale := sws }
            if s.flags.ack then
              some ({ h1 with state := .completed },
                [.raw ackFlags ((h.iss + 1) % W) h1.ackNum
                  (h1.rcvWnd >>> effectiveRcvWndScale h1)], none)
            else
              some ({ h1 with state := .synRcvd },
                [.synTCP h1.flags h1.iss h1.ackNum h1.rcvWnd h1.rcvWndScale], none)

/-- The method `handshake.synRcvdState` of `connect.go`. `freshIss` is the random
oracle consumed by `resetState` on the incompatible-SYN active path. -/
def synRcvdState (h : Handshake) (s : Segment) (freshIss : Nat) :
    Handshake × List Emit × Option TcpError :=
  if s.flags.rst then
    if inWindow s.sequenceNumber h.ackNum h.rcvWnd then
      (h, [], some .connectionRefused)
    else (h, [], none)
  else
    match checkAck h s with
    | (false, es) => (h, es, none)
    | (true, _) =>
      if s.flags.syn ∧ s.sequenceNumber ≠ sub32 h.ackNum 1 then
        let ack := (s.sequenceNumber + logicalLen s) % W
        let seq := if s.flags.ack then s.ackNumber else 0
        let rstSeg := Emit.raw rstAckFlags seq ack 0
        if ¬ h.active then (h, [rstSeg], some .invalidEndpointState)
        else
          let h' := resetState h freshIss
          (h', [rstSeg, .synTCP h'.flags h'.iss h'.ackNum h'.rcvWnd h'.rcvWndScale],
            none)
      else if s.flags.ack then ({ h with state := .completed }, [], none)
      else (h, [], none)

/-- The `wakerForResend` arm of `handshake.execute` (`connect.go`):
`timeOut *= 2; if timeOut > 60*time.Second { return ErrTimeout };
rt.Reset(timeOut)`. Durations are in seconds. `none` means the
handshake fails with `ErrTimeout` (without re-emitting); `some t` means
the timer is re-armed with `t` and the SYN (or SYN|ACK) is re-emitted. -/
def resendWake (timeOut : Nat) : Option Nat :=
  let t := timeOut * 2
  if t > 60 then none else some t

/-- State of the no-reply retransmission schedule: the currently armed
timeout, the absolute time at which the armed timer will fire, and the
absolute times of the retransmissions so far. -/
structure ResendState where
  timeOut : Nat
  nextWake : Nat
  resendTimes : List Nat
  deriving DecidableEq, Repr

/-- One resend wake of `execute` with no reply: the timer fires at
`st.nextWake` and `resendWake` either fails (`Timeout`, the error
carries the failing wake's time) or re-arms and re-emits. -/
def resendStep (st : ResendState) : Except Nat ResendState :=
  match resendWake st.timeOut with
  | none => .error st.nextWake
  | some t => .ok ⟨t, st.nextWake + t, st.resendTimes ++ [st.nextWake]⟩

/-- The schedule after `n` resend wakes with no reply. The initial SYN
goes out at time 0 with the timer armed at 1 s (`execute` lines
312-315). -/
def resendSchedule : Nat → Except Nat ResendState
  | 0 => .ok ⟨1, 1, []⟩
  | n + 1 => (resendSchedule n).bind resendStep

/-- The `stateEnum` values of the endpoint relevant to the driver. -/
inductive EpState where
  | connected
  | error
  | closed
  deriving DecidableEq, Repr

/-- Observable actions of `handleSegments` on its collaborators: calls
into the opaque receiver/sender sub-engines and waker/ACK side
effects. -/
inductive Ev where
  | rcvHandle (s : Segment)
  | sndHandle (s : Segment)
  | requeueAssert
  | sendAck
  deriving DecidableEq, Repr

/-- The slice of the endpoint state that `handleSegments` reads and
writes. The receiver and sender sub-engines are out of scope (spec §1);
`rcvNxt` and `maxSentAck` are their fields as read for the final ACK
check, and `acceptable` is passed in as an opaque predicate. -/
structure EstEp where
  stateE : EpState
  hardError : Option TcpError
  segQueue : List Segment
  sndWndScale : Nat
  rcvNxt : Nat
  maxSentAck : Nat
  deriving DecidableEq, Repr

/-- The dequeue loop of `endpoint.handleSegments` (`connect.go` lines
580-612), with the per-wake segment budget as `fuel` (the code runs it
with `maxSegmentsPerWake = 100`). Returns the endpoint, the events in
order, the value `handleSegments` returns if the loop exited early
(`some false` on a fatal RST), and `checkRequeue`. -/
def handleSegmentsLoop (acceptable : Nat → Nat → Bool) :
    Nat → EstEp → EstEp × List Ev × Option Bool × Bool
  | 0, e => (e, [], none, true)
  | fuel + 1, e =>
    match e.segQueue with
    | [] => (e, [], none, false)
    | s :: rest =>
      let e0 := { e with segQueue := rest }
      if s.flags.rst then
        if acceptable s.sequenceNumber 0 then
          ({ e0 with stateE := .error, hardError := some .connectionReset },
            [], some false, true)
        else handleSegmentsLoop acceptable fuel e0
      else if s.flags.ack then
        let s' := { s with window := (s.window <<< e.sndWndScale) % W }
        let r := handleSegmentsLoop acceptable fuel e0
        (r.1, .rcvHandle s' :: .sndHandle s' :: r.2.1, r.2.2)
      else handleSegmentsLoop acceptable fuel e0

/-- The method `endpoint.handleSegments` of `connect.go`: the loop above with a
budget of 100, then the requeue assertion and the trailing ACK, unless
the loop already returned. -/
def handleSegments (acceptable : Nat → Nat → Bool) (e : EstEp) :
    EstEp × List Ev × Bool :=
  match handleSegmentsLoop acceptable 100 e with
  | (e', evs, some r, _) => (e', evs, r)
  | (e', evs, none, checkRequeue) =>
    let evs1 := evs ++
      (if checkRequeue ∧ e'.segQueue ≠ [] then [Ev.requeueAssert] else [])
    let evs2 := evs1 ++
      (if e'.rcvNxt ≠ e'.maxSentAck then [Ev.sendAck] else [])
    (e', evs2, true)

/-- The slice of the sender (`snd`) state that `handleWrite` and
`handleClose` touch. `writeList` holds abstract packet identifiers.
The sender's internals are out of scope (spec §1). -/
structure SndState where
  closed : Bool
  sndNxtList : Nat
  writeList : List Nat
  writeNext : Option Nat
  deriving DecidableEq, Repr

/-- The slice of the endpoint state that `handleWrite` / `handleClose`
touch: the sender, the application send queue (abstract packets), and
the queued byte count `sndBufInQueue`. -/
structure WEp where
  snd : SndState
  sndQueue : List Nat
  sndBufInQueue : Nat
  deriving DecidableEq, Repr

/-- The opaque `sender.sendData`: a state transformer on the sender
plus the segments it emits. `handleWrite`/`handleClose` are
parameterized over it because its internals are out of scope. -/
def SendData : Type := SndState → SndState × List Emit

/-- The method `endpoint.handleWrite` of `connect.go`. Returns the endpoint, the
boolean handed back to the driver loop, and the emitted segments. -/
def handleWrite (sendData : SendData) (e : WEp) : WEp × Bool × List Emit :=
  if e.snd.closed then (e, true, [])
  else
    let first := e.sndQueue.head?
    let snd1 :=
      match first with
      | some _ =>
        { e.snd with
          writeList := e.snd.writeList ++ e.sndQueue
          sndNxtList := (e.snd.sndNxtList + e.sndBufInQueue) % W }
      | none => e.snd
    let q := match first with | some _ => [] | none => e.sndQueue
    let bq := match first with | some _ => 0 | none => e.sndBufInQueue
    let snd2 :=
      match snd1.writeNext with
      | none => { snd1 with writeNext := first }
      | some _ => snd1
    let r := sendData snd2
    ({ snd := r.1, sndQueue := q, sndBufInQueue := bq }, true, r.2)

/-- The method `endpoint.handleClose` of `connect.go`: drain writes via
`handleWrite`, mark the send side closed, bump `sndNxtList` by one (the
FIN byte), push out the FIN via `sendData`. -/
def handleClose (sendData : SendData) (e : WEp) : WEp × Bool × List Emit :=
  if e.snd.closed then (e, true, [])
  else
    let r1 := handleWrite sendData e
    let e1 := r1.1
    let snd1 := { e1.snd with closed := true, sndNxtList := (e1.snd.sndNxtList + 1) % W }
    let r2 := sendData snd1
    ({ e1 with snd := r2.1 }, true, r1.2.2 ++ r2.2)

/-- The atomic state word of a `sleep.Waker`
(`sleep/sleep_unsafe.go`): `nil`, a bound sleeper (identified by an
id), or the `&assertedSleeper` sentinel. The claims about Assert/Clear
concern a waker with no concurrent operations, so the pointer atomics
are embedded as a sequential state machine. -/
inductive WakerState where
  | unbound
  | bound (sleeperId : Nat)
  | asserted
  deriving DecidableEq, Repr

namespace Waker

/-- The method `Waker.Assert`: early-return if already asserted, else swap to
asserted; the returned `Option Nat` is the sleeper whose shared list
the waker enqueues itself on (`enqueueAssertedWaker`), if any. -/
def assert : WakerState → WakerState × Option Nat
  | .asserted => (.asserted, none)
  | .unbound => (.asserted, none)
  | .bound sid => (.asserted, some sid)

/-- The method `Waker.Clear`: early-return `false` if not asserted, else CAS
asserted → nil (which always succeeds sequentially) and return `true`.
Returns (previous asserted status, new state). -/
def clear : WakerState → Bool × WakerState
  | .asserted => (true, .unbound)
  | w => (false, w)

/-- The method `Waker.IsAsserted`. -/
def isAsserted (w : WakerState) : Bool := w = .asserted

end Waker

/-- The smallest `k` with `0xFFFF <<< k ≥ wnd`: the `k` of the spec's
window-scale derivation, to be compared with `findWndScale`. -/
def smallestK (wnd : Nat) : Nat :=
  Nat.find (⟨wnd, by
    have h1 : wnd < 2 ^ wnd := Nat.lt_two_pow wnd
    calc wnd ≤ 2 ^ wnd := h1.le
      _ ≤ 0xffff * 2 ^ wnd := Nat.le_mul_of_pos_left _ (by norm_num)
      _ = 0xffff <<< wnd := (Nat.shiftLeft_eq _ _).symm⟩ :
    ∃ k, wnd ≤ 0xffff <<< k)

/-- Concrete handshake used to exercise the SynRcvd incompatible-SYN
path: active, `ackNum = 100`, `iss = 50`, `rcvWnd = 65535`. -/
def hsSynRcvdEx : Handshake :=
  ⟨.synRcvd, true, synAckFlags, 100, 50, 65535, 0, 0, 0, 0⟩

/-- A bare SYN with sequence number 5 (which differs from
`ackNum - 1 = 99`). -/
def segSynEx : Segment := ⟨5, 0, 0, ⟨false, true, false, false⟩, 0, []⟩

/-- Concrete SynSent handshake: `iss = 10`, `rcvWnd = 0x20000`,
`rcvWndScale = 2`. -/
def hsSynSentEx : Handshake :=
  ⟨.synSent, true, synFlags, 0, 10, 0x20000, 0, 0, -1, 2⟩

/-- A SYN|ACK answering `hsSynSentEx` (`ack = iss + 1 = 11`), with no
options. -/
def segSynAckEx : Segment := ⟨200, 11, 4096, ⟨false, true, false, true⟩, 0, []⟩

/-- A bare RST (no ACK). -/
def segRstEx : Segment := ⟨0, 0, 0, ⟨false, false, true, false⟩, 0, []⟩

/-- An RST segment with sequence number 42 for the established-state
driver. -/
def segRstEstEx : Segment := ⟨42, 0, 0, ⟨false, false, true, false⟩, 0, []⟩

/-- An established endpoint whose queue holds just `segRstEstEx`. -/
def estEpEx : EstEp := ⟨.connected, none, [segRstEstEx], 3, 7, 7⟩

/-- An acceptability predicate that accepts everything. -/
def accAllEx : Nat → Nat → Bool := fun _ _ => true

/-- A `sendData` stand-in that emits nothing and keeps the sender
state. -/
def sendDataIdEx : SendData := fun st => (st, [])

/-- An endpoint whose send side is already closed. -/
def wEpClosedEx : WEp := ⟨⟨true, 5, [], none⟩, [], 0⟩

/-- The `findWndScale` loop started at step `s` with `max = 0xFFFF <<< s`
computes `min (smallestK wnd) maxWndScale`, provided every earlier shift
was still below `wnd`. -/
theorem findWndScaleLoop_spec (wnd : Nat) :
    ∀ fuel s, s + fuel = maxWndScale → (∀ j, j < s → 0xffff <<< j < wnd) →
      findWndScaleLoop wnd (0xffff <<< s) s fuel = min (smallestK wnd) maxWndScale := by
  intro fuel
  induction fuel with
  | zero =>
    intro s hs hj
    have hmax : maxWndScale = 14 := rfl
    have h14 : maxWndScale ≤ smallestK wnd := by
      unfold smallestK
      exact (Nat.le_find_iff _ _).mpr fun m hm => not_le.mpr (hj m (by omega))
    rw [findWndScaleLoop, min_eq_right h14]
    omega
  | succ fuel ih =>
    intro s hs hj
    have hmax : maxWndScale = 14 := rfl
    rw [findWndScaleLoop]
    by_cases hgt : wnd > 0xffff <<< s ∧ s < maxWndScale
    · rw [if_pos hgt]
      have hshift : (0xffff <<< s) * 2 = 0xffff <<< (s + 1) := by
        rw [Nat.shiftLeft_eq, Nat.shiftLeft_eq, pow_succ]; ring
      rw [hshift]
      refine ih (s + 1) (by omega) fun j hj1 => ?_
      rcases Nat.lt_succ_iff_lt_or_eq.mp hj1 with h | h
      · exact hj j h
      · subst h; exact hgt.1
    · rw [if_neg hgt]
      have hle : wnd ≤ 0xffff <<< s := by
        rcases not_and_or.mp hgt with h | h
        · exact not_lt.mp h
        · omega
      have hfind_le : smallestK wnd ≤ s := by
        unfold smallestK
        exact Nat.find_min' _ hle
      have hfind_ge : s ≤ smallestK wnd := by
        unfold smallestK
        exact (Nat.le_find_iff _ _).mpr fun m hm => not_le.mpr (hj m hm)
      rw [le_antisymm hfind_le hfind_ge, min_eq_left (by omega)]

/-- C8: for every receive window `wnd`, `findWndScale wnd` equals
`min k 14` where `k` is the smallest integer with `0xFFFF <<< k ≥ wnd`
(`smallestK`, which is 0 whenever `wnd < 0x10000`); in particular the
scale is 0 for `0xFFFF`, 1 for `0x10000` and 14 for `0x7FFFFFFF`. -/
theorem c8_findWndScale :
    (∀ wnd, findWndScale wnd = min (smallestK wnd) maxWndScale) ∧
    findWndScale 0xffff = 0 ∧ findWndScale 0x10000 = 1 ∧
    findWndScale 0x7fffffff = 14 := by
  refine ⟨fun wnd => ?_, by decide, by decide, by decide⟩
  rw [findWndScale]
  by_cases hlt : wnd < 0x10000
  · rw [if_pos hlt]
    have h0 : smallestK wnd = 0 := by
      unfold smallestK
      rw [Nat.find_eq_zero]
      simpa [Nat.shiftLeft_eq] using (by omega : wnd ≤ 0xffff)
    simp [h0]
  · rw [if_neg hlt]
    have hloop := findWndScaleLoop_spec wnd maxWndScale 0 (by omega)
      (fun j hj => absurd hj (Nat.not_lt_zero j))
    simpa [Nat.shiftLeft_zero] using hloop

/-- On the options `[NOP, NOP, kind 5, len 0]` the parse loop is stuck
at `i = 2`: the default branch reads length 0, the guard `i < 2 ∨
i + l > limit` does not fire, and `i += 0` leaves `i` unchanged. -/
theorem parseSynOptionsLoop_stuck :
    ∀ fuel, parseSynOptionsLoop [1, 1, 5, 0] 4 fuel 2 536 (-1) = none := by
  intro fuel
  induction fuel with
  | zero => rfl
  | succ fuel ih =>
    rw [parseSynOptionsLoop]
    simpa using ih

/-- C2: refuted — `parseSynOptions` does not terminate on every options
string of length at most 40. On `[1, 1, 5, 0]` (NOP, NOP, unknown kind
5 with length byte 0) the loop never exits: the default branch checks
`i < 2 || i+l > limit` instead of `l < 2 || i+l > limit`, so a zero
length at `i ≥ 2` advances `i` by nothing, for any amount of fuel. -/
theorem c2_parseSynOptions_loops :
    ∀ fuel, parseSynOptions fuel [1, 1, 5, 0] = none := by
  intro fuel
  match fuel with
  | 0 => rfl
  | 1 => rfl
  | n + 2 =>
    have hred : parseSynOptions (n + 2) [1, 1, 5, 0] =
        parseSynOptionsLoop [1, 1, 5, 0] 4 n 2 536 (-1) := rfl
    rw [hred]
    exact parseSynOptionsLoop_stuck n

/-- C3: refuted — for an unrecognized option kind the code bails out
when `i < 2 || i+l > limit`, not when `l < 2 || i+l > limit`. On
`[5, 4, 0, 0]` (unknown kind 5 at offset 0, length byte 4, which fits
the region exactly) the claim says the parser advances by 4 and
succeeds, but the code returns `ok = false` because `i = 0 < 2`. -/
theorem c3_parseSynOptions_default_guard :
    parseSynOptions 100 [5, 4, 0, 0] = some (0, -1, false) ∧
    (0 : Nat) + 4 ≤ 4 ∧ ¬ ((4 : Nat) < 2) := by
  refine ⟨by decide, by decide, by decide⟩

/-- C5: with the retransmit timeout starting at one second and
`resendWake` doubling it (failing with Timeout once it exceeds 60 s,
without re-emitting), a reply-less handshake performs exactly five
retransmissions after the initial SYN, at cumulative times 1, 3, 7, 15
and 31 s, and the sixth resend wake, at 63 s, returns Timeout. -/
theorem c5_resend_backoff :
    resendSchedule 5 = .ok ⟨32, 63, [1, 3, 7, 15, 31]⟩ ∧
    resendSchedule 6 = .error 63 ∧
    (resendSchedule 5).map (fun st => st.resendTimes.length) = .ok 5 := by
  refine ⟨rfl, rfl, rfl⟩

/-- C9: `Waker.assert` is idempotent — on an already-asserted waker it
changes nothing (and enqueues on no sleeper), so two asserts equal one;
`Waker.clear` returns `true` and moves to the unbound state exactly when
the waker was asserted, and returns `false` leaving the state unchanged
otherwise; in particular `clear` right after `assert` returns `true`
and `isAsserted` is `false` afterwards. -/
theorem c9_waker_assert_clear :
    ∀ w : WakerState,
      (w = .asserted → Waker.assert w = (w, none)) ∧
      Waker.assert (Waker.assert w).1 = ((Waker.assert w).1, none) ∧
      ((Waker.clear w).1 = true ∧ (Waker.clear w).2 = .unbound ↔ w = .asserted) ∧
      ((Waker.clear w).1 = false → (Waker.clear w).2 = w) ∧
      Waker.clear (Waker.assert w).1 = (true, .unbound) ∧
      Waker.isAsserted (Waker.clear (Waker.assert w).1).2 = false := by
  intro w
  cases w <;> simp [Waker.assert, Waker.clear, Waker.isAsserted]

/-- Witness for C9 at the asserted state. -/
theorem c9_waker_assert_clear_witness :
    Waker.assert .asserted = (.asserted, none) :=
  (c9_waker_assert_clear .asserted).1 rfl

/-- C10: when the send side is already closed, `handleWrite` and
`handleClose` return `true` immediately, leave the whole endpoint
unchanged and emit nothing; and, for any `sendData` that does not
reopen the send side, a second close wake after a first is a no-op
(in particular no second FIN bump of `sndNxtList`). -/
theorem c10_closed_send_frame (sendData : SendData) :
    (∀ e : WEp, e.snd.closed = true →
      handleWrite sendData e = (e, true, []) ∧
      handleClose sendData e = (e, true, [])) ∧
    (∀ e : WEp, (∀ st, ((sendData st).1).closed = st.closed) →
      handleClose sendData (handleClose sendData e).1 =
        ((handleClose sendData e).1, true, [])) := by
  have hw : ∀ e : WEp, e.snd.closed = true → handleWrite sendData e = (e, true, []) :=
    fun e hc => by simp [handleWrite, hc]
  have hcl : ∀ e : WEp, e.snd.closed = true → handleClose sendData e = (e, true, []) :=
    fun e hc => by simp [handleClose, hc]
  refine ⟨fun e hc => ⟨hw e hc, hcl e hc⟩, fun e hp => ?_⟩
  by_cases hc : e.snd.closed = true
  · rw [hcl e hc]
    exact hcl e hc
  · have hcf : e.snd.closed = false := by revert hc; cases e.snd.closed <;> simp
    have hclosed : (handleClose sendData e).1.snd.closed = true := by
      simp [handleClose, hcf, hp]
    exact hcl _ hclosed

/-- Witness for C10 on a closed endpoint with an inert `sendData`. -/
theorem c10_closed_send_frame_witness :
    handleWrite sendDataIdEx wEpClosedEx = (wEpClosedEx, true, []) ∧
    handleClose sendDataIdEx wEpClosedEx = (wEpClosedEx, true, []) :=
  (c10_closed_send_frame sendDataIdEx).1 wEpClosedEx rfl

/-- The check `checkAck` passes (emitting nothing) whenever the segment either
lacks ACK or acknowledges `iss + 1`. -/
theorem checkAck_pass (h : Handshake) (s : Segment)
    (hca : s.flags.ack = true → s.ackNumber = (h.iss + 1) % W) :
    checkAck h s = (true, []) := by
  cases hab : s.flags.ack with
  | false => simp [checkAck, hab]
  | true => simp [checkAck, hab, hca hab]

/-- C1 counterexample: on an active SynRcvd handshake receiving a fresh
incompatible SYN, the code does not remain in SynRcvd (it moves to
SynSent) and the segment it retransmits is a plain SYN, not SYN|ACK. -/
theorem c1_counterexample :
    (synRcvdState hsSynRcvdEx segSynEx 7).1.state ≠ HandshakeState.synRcvd ∧
    (synRcvdState hsSynRcvdEx segSynEx 7).2.1 =
      [Emit.raw rstAckFlags 0 6 0, Emit.synTCP synFlags 7 0 65535 0] ∧
    synFlags.ack = false := by
  decide

/-- C1 (amended): in SynRcvd, a non-RST segment passing `checkAck` with
SYN set and `seq ≠ ackNum - 1` triggers an RST|ACK (seq = the segment's
ack number if ACK is present, else 0; ack = the segment's sequence
number plus its logical length); a passive handshake then fails with
InvalidEndpointState, while an active one resets to the SynSent state
(flags SYN, `ackNum = 0`, `mss = 0`, fresh `iss`, retaining `rcvWnd`
and `rcvWndScale`) and retransmits a plain SYN with seq = the fresh
`iss` and ack = 0. -/
theorem c1_synRcvd_incompatible_syn (h : Handshake) (s : Segment) (freshIss : Nat)
    (hrst : s.flags.rst = false)
    (hca : s.flags.ack = true → s.ackNumber = (h.iss + 1) % W)
    (hsyn : s.flags.syn = true)
    (hseq : s.sequenceNumber ≠ sub32 h.ackNum 1) :
    synRcvdState h s freshIss =
      (if h.active then resetState h freshIss else h,
       Emit.raw rstAckFlags (if s.flags.ack then s.ackNumber else 0)
         ((s.sequenceNumber + logicalLen s) % W) 0 ::
         (if h.active then
           [Emit.synTCP synFlags (freshIss % W) 0 h.rcvWnd h.rcvWndScale]
         else []),
       if h.active then none else some .invalidEndpointState) := by
  have hck := checkAck_pass h s hca
  cases hac : h.active <;>
    simp [synRcvdState, hrst, hck, hac, hsyn, hseq, resetState]

/-- Witness for the amended C1 on the concrete active handshake. -/
theorem c1_synRcvd_incompatible_syn_witness :
    synRcvdState hsSynRcvdEx segSynEx 7 =
      (resetState hsSynRcvdEx 7,
       [Emit.raw rstAckFlags 0 6 0, Emit.synTCP synFlags 7 0 65535 0],
       none) := by
  rw [c1_synRcvd_incompatible_syn hsSynRcvdEx segSynEx 7 (by decide) (by decide)
    (by decide) (by decide)]
  decide

/-- One unfolding of the `handleSegments` dequeue loop on a non-empty
queue. -/
theorem handleSegmentsLoop_cons (acc : Nat → Nat → Bool) (fuel : Nat)
    (e : EstEp) (s : Segment) (rest : List Segment)
    (hq : e.segQueue = s :: rest) :
    handleSegmentsLoop acc (fuel + 1) e =
      (if s.flags.rst then
        if acc s.sequenceNumber 0 then
          ({ e with segQueue := rest, stateE := .error,
                    hardError := some .connectionReset }, [], some false, true)
        else handleSegmentsLoop acc fuel { e with segQueue := rest }
      else if s.flags.ack then
        let s' := { s with window := (s.window <<< e.sndWndScale) % W }
        let r := handleSegmentsLoop acc fuel { e with segQueue := rest }
        (r.1, .rcvHandle s' :: .sndHandle s' :: r.2.1, r.2.2)
      else handleSegmentsLoop acc fuel { e with segQueue := rest }) := by
  rcases e with ⟨st, he, q, sw, rn, ms⟩
  simp only [EstEp.mk.injEq] at hq ⊢
  subst hq
  rfl

/-- C4: in the established-state driver, for the segment at the head of
the queue: an acceptable RST puts the endpoint in the Error state with
hard error ConnectionReset and makes the driver exit (`false`, nothing
else happens); a non-RST segment with ACK has its advertised window
left-shifted by the send window scale and is handed first to the
receiver and then to the sender; a segment with neither RST nor ACK is
discarded without invoking either sub-engine or any other effect. -/
theorem c4_established_dispatch (acc : Nat → Nat → Bool) (e : EstEp)
    (s : Segment) (rest : List Segment) (hq : e.segQueue = s :: rest) :
    (s.flags.rst = true → acc s.sequenceNumber 0 = true →
      handleSegments acc e =
        ({ e with segQueue := rest, stateE := .error,
                  hardError := some .connectionReset }, [], false)) ∧
    (s.flags.rst = false → s.flags.ack = true →
      (handleSegments acc e).2.1.take 2 =
        [Ev.rcvHandle { s with window := (s.window <<< e.sndWndScale) % W },
         Ev.sndHandle { s with window := (s.window <<< e.sndWndScale) % W }]) ∧
    (s.flags.rst = false → s.flags.ack = false → ∀ fuel,
      handleSegmentsLoop acc (fuel + 1) e =
        handleSegmentsLoop acc fuel { e with segQueue := rest }) := by
  refine ⟨fun hr ha => ?_, fun hr ha => ?_, fun hr ha fuel => ?_⟩
  · have hloop : handleSegmentsLoop acc 100 e =
        ({ e with segQueue := rest, stateE := .error,
                  hardError := some .connectionReset }, [], some false, true) := by
      rw [show (100 : Nat) = 99 + 1 from rfl, handleSegmentsLoop_cons acc 99 e s rest hq]
      simp [hr, ha]
    rw [handleSegments, hloop]
  · rcases hrec : handleSegmentsLoop acc 99 { e with segQueue := rest } with ⟨e', evs, ro, cr⟩
    have hloop : handleSegmentsLoop acc 100 e =
        (e', Ev.rcvHandle { s with window := (s.window <<< e.sndWndScale) % W } ::
             Ev.sndHandle { s with window := (s.window <<< e.sndWndScale) % W } :: evs,
         ro, cr) := by
      rw [show (100 : Nat) = 99 + 1 from rfl, handleSegmentsLoop_cons acc 99 e s rest hq]
      simp [hr, ha, hrec]
    rw [handleSegments, hloop]
    cases ro with
    | some b => simp
    | none => simp
  · rw [handleSegmentsLoop_cons acc fuel e s rest hq]
    simp [hr, ha]

/-- Witness for C4 on a one-RST queue with an all-accepting receiver. -/
theorem c4_established_dispatch_witness :
    handleSegments accAllEx estEpEx =
      ({ estEpEx with segQueue := [], stateE := .error,
                      hardError := some .connectionReset }, [], false) :=
  (c4_established_dispatch accAllEx estEpEx segRstEstEx [] rfl).1 rfl rfl

/-- C6: in SynSent, a non-RST segment passing `checkAck`, carrying SYN,
whose options parse to `(pmss, pws, ok = true)`, makes the handshake
record `ackNum = seq + 1`, the peer MSS and the peer window scale (and
set its ACK flag); if the segment also carries ACK the phase becomes
Completed and a bare ACK is emitted with seq = `iss + 1`,
ack = `ackNum` and window = `rcvWnd >> effectiveRcvWndScale`. -/
theorem c6_synSent_synAck (fuel : Nat) (h : Handshake) (s : Segment)
    (pmss : Nat) (pws : Int)
    (hrst : s.flags.rst = false)
    (hca : s.flags.ack = true → s.ackNumber = (h.iss + 1) % W)
    (hsyn : s.flags.syn = true)
    (hparse : parseSynOptions fuel s.options = some (pmss, pws, true)) :
    synSentState fuel h s =
      some
        (let h1 := { h with
          ackNum := (s.sequenceNumber + 1) % W
          flags := { h.flags with ack := true }
          mss := pmss
          sndWndScale := pws }
         if s.flags.ack then
           ({ h1 with state := .completed },
            [.raw ackFlags ((h.iss + 1) % W) h1.ackNum
              (h1.rcvWnd >>> effectiveRcvWndScale h1)], none)
         else
           ({ h1 with state := .synRcvd },
            [.synTCP h1.flags h1.iss h1.ackNum h1.rcvWnd h1.rcvWndScale], none)) := by
  have hck := checkAck_pass h s hca
  simp only [synSentState, hrst, hck, hsyn, hparse]
  simp only [Bool.false_eq_true, if_false, not_true, ite_not]
  split <;> rfl

/-- Witness for C6: a SYN|ACK with empty options completes the
handshake and emits the bare ACK. -/
theorem c6_synSent_synAck_witness :
    synSentState 1 hsSynSentEx segSynAckEx =
      some (⟨.completed, true, synAckFlags, 201, 10, 0x20000, 0, 536, -1, 2⟩,
        [.raw ackFlags 11 201 0x20000], none) := by
  rw [c6_synSent_synAck 1 hsSynSentEx segSynAckEx 536 (-1) (by decide) (by decide)
    (by decide) (by decide)]
  decide

/-- C7: in SynSent, an RST segment causes failure with
ConnectionRefused exactly when it also carries ACK and acknowledges
`iss + 1`; every other RST segment is ignored — the handshake is
unchanged, nothing is sent and no error is returned. -/
theorem c7_synSent_rst (fuel : Nat) (h : Handshake) (s : Segment)
    (hrst : s.flags.rst = true) :
    (synSentState fuel h s = some (h, [], some .connectionRefused) ↔
      s.flags.ack = true ∧ s.ackNumber = (h.iss + 1) % W) ∧
    (¬ (s.flags.ack = true ∧ s.ackNumber = (h.iss + 1) % W) →
      synSentState fuel h s = some (h, [], none)) := by
  by_cases hcond : s.flags.ack = true ∧ s.ackNumber = (h.iss + 1) % W
  · simp [synSentState, hrst, hcond]
  · simp [synSentState, hrst, hcond]

/-- Witness for C7: a bare RST (no ACK) is ignored. -/
theorem c7_synSent_rst_witness :
    synSentState 1 hsSynSentEx segRstEx = some (hsSynSentEx, [], none) :=
  (c7_synSent_rst 1 hsSynSentEx segRstEx (by decide)).2 (by decide)

end Netstack
